import Mathlib

/-!
Shallow embedding of the Video-Veil AUTOMATIC1111 extension
(scripts/video-veil.py) together with theorems settling the frozen claims
about its specification.

Modelling conventions:
* Tensors are elementwise objects; a latent is represented by one scalar
  (a rational), since every tensor operation in the source is elementwise
  and the algorithm never branches on latent values.  The batch-of-two
  duplication performed by the source (`torch.cat([x] * 2)` followed by
  `.chunk(2)`) is kept explicit as a pair.
* `K.utils.append_dims` is a broadcasting shim and is the identity in the
  scalar model.
* Image pixel buffers are height/width plus a flat list of 3-channel
  pixels; `cv2.cvtColor(..., BGR2RGB)` and `(..., RGB2BGR)` both swap the
  first and third channel of every pixel.
* External collaborators (the diffusion model, the denoiser wrappers, the
  filesystem, the video codec, PIL) are environment records of opaque
  functions supplied as parameters.
-/

/-- A duplicated batch of two tensors, as produced by `torch.cat([x] * 2)`. -/
abbrev Batch2 (a : Type) := a × a

/-- Elementwise multiplication on a duplicated batch. -/
def bmul (x y : Batch2 ℚ) : Batch2 ℚ := (x.1 * y.1, x.2 * y.2)

/-- Elementwise addition on a duplicated batch. -/
def badd (x y : Batch2 ℚ) : Batch2 ℚ := (x.1 + y.1, x.2 + y.2)

/-- One 3-channel pixel. -/
abbrev Pixel := ℕ × ℕ × ℕ

/-- A decoded pixel array: height, width and the row-major pixel data
(`np.ndarray` of shape (h, w, 3)). -/
structure PixBuf where
  h : ℕ
  w : ℕ
  pix : List Pixel
deriving DecidableEq, Repr, Inhabited

/-- cv2.cvtColor(frame, cv2.COLOR_BGR2RGB): swap channels 0 and 2 of every
pixel. -/
def cvtColor_BGR2RGB (a : PixBuf) : PixBuf :=
  { a with pix := a.pix.map (fun p => (p.2.2, p.2.1, p.1)) }

/-- cv2.cvtColor(frame, cv2.COLOR_RGB2BGR): swap channels 0 and 2 of every
pixel. -/
def cvtColor_RGB2BGR (a : PixBuf) : PixBuf :=
  { a with pix := a.pix.map (fun p => (p.2.2, p.2.1, p.1)) }

/-- A PIL image: its pixel buffer plus its mode string. -/
structure PILImg where
  buf : PixBuf
  mode : String
deriving DecidableEq, Repr, Inhabited

/-- Image.fromarray: reinterpret an array as an RGB PIL image. -/
def Image_fromarray (a : PixBuf) : PILImg := { buf := a, mode := "RGB" }

/-- np.array(image): the pixel buffer of a PIL image. -/
def np_array (im : PILImg) : PixBuf := im.buf

/-- One unit of source footage (class VideoVeilImage, lines 30-46). -/
structure VideoVeilImage where
  frame_array : PixBuf
  frame_image : PILImg
  transformed_image : Option PILImg
  height : ℕ
  width : ℕ
deriving DecidableEq, Repr, Inhabited

/-- VideoVeilImage.__init__ with `frame_array` given (lines 36-38, 42-43):
keep the decoder array as `frame_array` and store its BGR2RGB conversion as
`frame_image`. -/
def VideoVeilImage.ofFrameArray (frame_array : PixBuf) : VideoVeilImage :=
  let converted_frame_array := cvtColor_BGR2RGB frame_array
  { frame_array := frame_array
    frame_image := Image_fromarray converted_frame_array
    transformed_image := none
    height := frame_array.h
    width := frame_array.w }

/-- VideoVeilImage.__init__ with `frame_image` given (lines 39-40, 42-43):
`frame_array` is `np.array` of the image. -/
def VideoVeilImage.ofFrameImage (frame_image : PILImg) : VideoVeilImage :=
  let frame_array := np_array frame_image
  { frame_array := frame_array
    frame_image := frame_image
    transformed_image := none
    height := frame_array.h
    width := frame_array.w }

/-- VideoVeilImage.set_transformed_image (lines 45-46). -/
def VideoVeilImage.set_transformed_image (v : VideoVeilImage) (image : PILImg) :
    VideoVeilImage :=
  { v with transformed_image := some image }

/-- The conditioning dictionary passed to apply_model (line 71):
singleton lists holding the duplicated image conditioning and the
concatenated cross-attention conditioning. -/
structure CondDict (i g : Type) where
  c_concat : List (Batch2 i)
  c_crossattn : List (Batch2 g)

/-- The model parameterization (shared.sd_model.parameterization, line 53). -/
inductive Parameteriz where
  | eps
  | v
deriving DecidableEq, Repr

/-- A k-diffusion denoiser wrapper (K.external.CompVisDenoiser or
CompVisVDenoiser): opaque schedule and scaling providers. -/
structure Denoiser where
  get_sigmas : ℕ → List ℚ
  sigma_to_t : Batch2 ℚ → Batch2 ℚ
  get_scalings : Batch2 ℚ → List (Batch2 ℚ)

/-- A sampler handle as returned by sd_samplers.create_sampler; only its
schedule provider is observed by this extension. -/
structure Sampler where
  get_sigmas : ℕ → List ℚ

/-- The opaque host environment of the noise-inversion routine: the shared
model, the two denoiser wrappers, the conditioning encoder, and the sampler
factory. -/
structure Env (i g : Type) where
  parameterization : Parameteriz
  compVisDenoiser : Denoiser
  compVisVDenoiser : Denoiser
  apply_model : Batch2 ℚ → Batch2 ℚ → CondDict i g → Batch2 ℚ
  get_learned_conditioning : List String → g
  create_sampler : String → Sampler

/-- The denoiser wrapper selected by lines 53-58. -/
def selectedDenoiser {i g : Type} (env : Env i g) : Denoiser :=
  match env.parameterization with
  | .v => env.compVisVDenoiser
  | .eps => env.compVisDenoiser

/-- The scaling skip offset selected by lines 53-58 (1 for a
velocity-predicting model, 0 otherwise). -/
def skipOf {i g : Type} (env : Env i g) : ℕ :=
  match env.parameterization with
  | .v => 1
  | .eps => 0

/-- The generation request fields read by the embedded code.  `i` is the
type of image conditioning, `r` the type of a color-correction reference. -/
structure ProcessingConfig (i r : Type) where
  batch_size : ℕ
  sampler_name : String
  steps : ℕ
  init_latent : ℚ
  image_conditioning : i
  prompt : String
  negative_prompt : String
  cfg_scale : ℚ
  n_iter : ℕ
  control_net_input_image : List PixBuf
  init_images : List PILImg
  color_corrections : Option (List r)
  outpath_samples : String

/-- Lines 66-83 of the loop body: duplicate the latent and conditioning
into a batch of two, derive the scalings (after the skip offset), invoke
the model once at the given timestep, split the denoised batch back into
its unconditional and conditional halves, and blend them with the guidance
scale. -/
def guidedDenoised {i g r : Type} (env : Env i g) (p : ProcessingConfig i r)
    (cond uncond : g) (cfg_scale : ℚ) (dnw : Denoiser) (skp : ℕ)
    (sigma_in t : Batch2 ℚ) (x : ℚ) : ℚ :=
  let x_in : Batch2 ℚ := (x, x)
  let cond_cat : Batch2 g := (uncond, cond)
  let image_conditioning : Batch2 i := (p.image_conditioning, p.image_conditioning)
  let cond_in : CondDict i g := { c_concat := [image_conditioning], c_crossattn := [cond_cat] }
  let scalings := (dnw.get_scalings sigma_in).drop skp
  let c_out := scalings.getD 0 (0, 0)
  let c_in := scalings.getD 1 (0, 0)
  let eps := env.apply_model (bmul x_in c_in) t cond_in
  let den := badd x_in (bmul eps c_out)
  let denoised_uncond := den.1
  let denoised_cond := den.2
  denoised_uncond + (denoised_cond - denoised_uncond) * cfg_scale

/-- One iteration of the inversion loop (lines 63-91): the duplicated
sigma for this step, the special-cased timestep at i = 1, the guided
denoised estimate, the step direction with its special case at i = 1, and
the Euler update. -/
def sigmaStep {i g r : Type} (env : Env i g) (p : ProcessingConfig i r)
    (cond uncond : g) (cfg_scale : ℚ) (dnw : Denoiser) (skp : ℕ)
    (sigmas : List ℚ) (idx : ℕ) (x : ℚ) : ℚ :=
  let s_in : ℚ := 1
  let sigma_prev := sigmas.getD (idx - 1) 0
  let sigma_in : Batch2 ℚ := (sigma_prev * s_in, sigma_prev * s_in)
  let t :=
    if idx = 1 then
      dnw.sigma_to_t (sigmas.getD idx 0 * s_in, sigmas.getD idx 0 * s_in)
    else
      dnw.sigma_to_t sigma_in
  let denoised := guidedDenoised env p cond uncond cfg_scale dnw skp sigma_in t x
  let d :=
    if idx = 1 then (x - denoised) / (2 * sigmas.getD idx 0)
    else (x - denoised) / sigma_prev
  let dt := sigmas.getD idx 0 - sigmas.getD (idx - 1) 0
  x + d * dt

/-- VideoVeilImage.find_noise_for_image_sigma_adjustment (lines 49-101).
The routine never reads `self`; it is a function of the request, the
conditioning pair, the guidance scale and the step count.  The schedule is
the selected denoiser schedule reversed (`.flip(0)`), the loop runs over
`range(1, len(sigmas))`, and the result is the final latent divided by
`sigmas[-1]`. -/
def find_noise_for_image_sigma_adjustment {i g r : Type} (env : Env i g)
    (p : ProcessingConfig i r) (cond uncond : g) (cfg_scale : ℚ) (steps : ℕ) : ℚ :=
  let x := p.init_latent
  let dnw := selectedDenoiser env
  let skp := skipOf env
  let sigmas := (dnw.get_sigmas steps).reverse
  let xN := (List.range' 1 (sigmas.length - 1)).foldl
    (fun x idx => sigmaStep env p cond uncond cfg_scale dnw skp sigmas idx x) x
  xN / sigmas.getLastD 0

/-- The reversed sigma schedule used by the inversion routine. -/
def revSigmas {i g : Type} (env : Env i g) (steps : ℕ) : List ℚ :=
  ((selectedDenoiser env).get_sigmas steps).reverse

/-- The record of arguments with which sample_extra finally delegates to
sampler.sample_img2img (line 469). -/
structure SampleCall (i g : Type) where
  x : ℚ
  noise : ℚ
  conditioning : g
  unconditional_conditioning : g
  image_conditioning : i

/-- The hard-coded positive placeholder prompt passed at line 529. -/
def prompt_describing_original_video : String :=
  "This prompt should describe your input video"

/-- The hard-coded negative placeholder prompt passed at line 530. -/
def neg_prompt_describing_original_video : String :=
  "This is your negative prompt describing your input video"

/-- The sample_extra closure installed by apply_img2img_alternate_fix
(lines 451-469): encode the two placeholder prompts, run the noise
inversion at guidance scale 1.0 with the request step count, subtract the
initial latent divided by the first schedule sigma, and delegate to the
created sampler with that noise. -/
def sample_extra {i g r : Type} (env : Env i g) (cp : ProcessingConfig i r)
    (prompt_text neg_prompt_text : String)
    (conditioning unconditional_conditioning : g) : SampleCall i g :=
  let decode_cfg_scale : ℚ := 1
  let cond := env.get_learned_conditioning [prompt_text]
  let uncond := env.get_learned_conditioning [neg_prompt_text]
  let rec_noise :=
    find_noise_for_image_sigma_adjustment env cp cond uncond decode_cfg_scale cp.steps
  let sampler := env.create_sampler cp.sampler_name
  let sigmas := sampler.get_sigmas cp.steps
  let noise_dt := rec_noise - (cp.init_latent / sigmas.getD 0 0)
  { x := cp.init_latent
    noise := noise_dt
    conditioning := conditioning
    unconditional_conditioning := unconditional_conditioning
    image_conditioning := cp.image_conditioning }

/-- A per-frame request after Script.apply_img2img_alternate_fix: the
mutated configuration together with the installed sampling override. -/
structure PreparedRequest (i g r : Type) where
  cp : ProcessingConfig i r
  sample : g → g → SampleCall i g

/-- Script.apply_img2img_alternate_fix (lines 441-471): force batch size 1
and the Euler sampler, then install sample_extra (which captures the
updated configuration) as the request sampling function. -/
def apply_img2img_alternate_fix {i g r : Type} (env : Env i g)
    (cp : ProcessingConfig i r)
    (prompt_text neg_prompt_text : String) : PreparedRequest i g r :=
  let cp := { cp with batch_size := 1, sampler_name := "Euler" }
  { cp := cp
    sample := fun conditioning unconditional_conditioning =>
      sample_extra env cp prompt_text neg_prompt_text conditioning unconditional_conditioning }

/-- The filesystem, codec and PIL collaborators used by the frame store
and the video assembler. -/
structure HostFS where
  path_exists : String → Bool
  listdir : String → List String
  open_image : String → PILImg
  convert : PILImg → String → PILImg
  video_opens : String → Bool
  video_frames : String → List PixBuf
  video_fps : String → ℚ
  basename : String → String

/-- os.path.join in the scalar path model. -/
def joinPath (a b : String) : String := a ++ "/" ++ b

/-- The construction-time errors raised by VideoVeilSourceVideo.  The
source raises plain Exceptions; the constructors here name the three
distinct raise sites (lines 129, 137, 190: directory missing, video
missing, no recognized images). -/
inductive VVErr where
  | directoryNotFound (path : Option String)
  | videoNotFound (path : Option String)
  | noImagesFound (path : String)
deriving DecidableEq, Repr

/-- The recognized image extensions (line 183). -/
def image_extensions : List String := [".jpg", ".jpeg", ".png"]

/-- The test-run frame-cap check at lines 196 and 217: a cap is present
and the number of loaded frames has reached it. -/
def capReached (cap : Option ℕ) (loaded : ℕ) : Bool :=
  match cap with
  | none => false
  | some k => k ≤ loaded

/-- PIL mode normalization at lines 204-205: convert to RGB unless the
image already is RGB. -/
def ensureRGB (fs : HostFS) (image : PILImg) : PILImg :=
  if image.mode = "RGB" then image else fs.convert image "RGB"

/-- The loading loop of _load_frames_from_folder (lines 194-207): stop
when the cap is reached, otherwise open the next image, normalize it to
RGB and append a frame built from it. -/
def loadFolderLoop (fs : HostFS) (dir : String) (cap : Option ℕ) :
    List String → List VideoVeilImage → List VideoVeilImage
  | [], frames => frames
  | image_name :: rest, frames =>
    if capReached cap frames.length then frames
    else
      let image := ensureRGB fs (fs.open_image (joinPath dir image_name))
      loadFolderLoop fs dir cap rest (frames ++ [VideoVeilImage.ofFrameImage image])

/-- VideoVeilSourceVideo._load_frames_from_folder (lines 182-209): filter
the directory listing by extension, raise when no image is found, then run
the loading loop. -/
def load_frames_from_folder (fs : HostFS) (dir : String) (cap : Option ℕ) :
    Except VVErr (List VideoVeilImage) :=
  let image_names := (fs.listdir dir).filter
    (fun file_name => image_extensions.any (fun ext => file_name.endsWith ext))
  if image_names.length ≤ 0 then .error (.noImagesFound dir)
  else .ok (loadFolderLoop fs dir cap image_names [])

/-- The decoding loop of _load_frames_from_video (lines 216-226): stop at
the cap or at the first failed read, otherwise append a frame built from
the decoded array. -/
def loadVideoLoop (cap : Option ℕ) :
    List PixBuf → List VideoVeilImage → List VideoVeilImage
  | [], frames => frames
  | buf :: rest, frames =>
    if capReached cap frames.length then frames
    else loadVideoLoop cap rest (frames ++ [VideoVeilImage.ofFrameArray buf])

/-- VideoVeilSourceVideo._load_frames_from_video (lines 211-228): an
unopenable container yields an empty frame list (no error); otherwise the
successful sequential reads are decoded up to the cap. -/
def load_frames_from_video (fs : HostFS) (path : String) (cap : Option ℕ) :
    List VideoVeilImage :=
  if fs.video_opens path then loadVideoLoop cap (fs.video_frames path) []
  else []

/-- The frame store (class VideoVeilSourceVideo, lines 103-233). -/
structure VideoVeilSourceVideo where
  frames : List VideoVeilImage
  use_images_directory : Bool
  video_path : Option String
  directory_upload_path : Option String
  test_run : Bool
  test_run_frames_count : Option ℕ
  video_width : ℕ
  video_height : ℕ
deriving DecidableEq, Repr

/-- VideoVeilSourceVideo._set_video_dimensions (lines 230-233). -/
def set_video_dimensions (sv : VideoVeilSourceVideo) : VideoVeilSourceVideo :=
  match sv.frames.head? with
  | some first_frame =>
    { sv with video_width := first_frame.width, video_height := first_frame.height }
  | none => sv

/-- VideoVeilSourceVideo.__init__ (lines 104-140): validate the selected
source path (raising only when `throw_errors_when_invalid` is set), then
load the frames and record the dimensions of the first one. -/
def mkVideoVeilSourceVideo (fs : HostFS) (use_images_directory : Bool)
    (video_path directory_upload_path : Option String) (test_run : Bool)
    (test_run_frames_count : ℕ) (throw_errors_when_invalid : Bool := true) :
    Except VVErr VideoVeilSourceVideo :=
  let cap : Option ℕ := if !test_run then none else some test_run_frames_count
  let base : VideoVeilSourceVideo :=
    { frames := []
      use_images_directory := use_images_directory
      video_path := video_path
      directory_upload_path := directory_upload_path
      test_run := test_run
      test_run_frames_count := cap
      video_width := 0
      video_height := 0 }
  if use_images_directory then
    if directory_upload_path.isNone ||
        !(fs.path_exists (directory_upload_path.getD "")) then
      if throw_errors_when_invalid then .error (.directoryNotFound directory_upload_path)
      else .ok base
    else
      match load_frames_from_folder fs (directory_upload_path.getD "") cap with
      | .error e => .error e
      | .ok frames => .ok (set_video_dimensions { base with frames := frames })
  else
    if video_path.isNone || !(fs.path_exists (video_path.getD "")) then
      if throw_errors_when_invalid then .error (.videoNotFound video_path)
      else .ok base
    else
      .ok (set_video_dimensions
        { base with frames := load_frames_from_video fs (video_path.getD "") cap })

/-- The observable effects of VideoVeilSourceVideo.create_mp4: the path of
the written file, the frame rate handed to the writer, the directory
created with makedirs, and the sequence of images fed to the writer
(`none` marks a frame whose transformed image is absent, which the source
would pass to cv2.cvtColor as `np.array(None)`). -/
structure Mp4Output where
  output_path : String
  fps : ℚ
  made_directory : String
  written : List (Option PixBuf)
deriving DecidableEq, Repr

/-- VideoVeilSourceVideo.create_mp4 (lines 142-180).  `now_utc` stands for
the strftime-formatted UTC timestamp taken at line 158.  The fps guard
`if clip:` at line 152 is always taken because a cv2.VideoCapture object
is truthy, so in video mode the container frame rate is always read. -/
def create_mp4 (fs : HostFS) (now_utc : String) (sv : VideoVeilSourceVideo)
    (seed : ℤ) (output_directory : String) : Option Mp4Output :=
  if sv.test_run then none
  else
    let original_file_name :=
      if !sv.use_images_directory then fs.basename (sv.video_path.getD "")
      else fs.basename (sv.directory_upload_path.getD "") ++ ".mp4"
    let fps : ℚ :=
      if !sv.use_images_directory then fs.video_fps (sv.video_path.getD "")
      else 30
    let file_name := now_utc ++ "-" ++ toString seed ++ "-" ++ original_file_name
    let out_dir := joinPath output_directory "video-veil-output"
    let output_path := joinPath out_dir file_name
    some
      { output_path := output_path
        fps := fps
        made_directory := out_dir
        written := sv.frames.map
          (fun frame => frame.transformed_image.map
            (fun im => cvtColor_RGB2BGR (np_array im))) }

/-- The color-correction mode strings (lines 20-22). -/
def color_correction_option_none : String := "None"

/-- The source-video color-correction mode string (line 21). -/
def color_correction_option_video : String := "From Source Video"

/-- The generated-image color-correction mode string (line 22). -/
def color_correction_option_generated_image : String :=
  "From Stable Diffusion Generated Image"

/-- The result of modules.processing.process_images: the generated images
and the reported seed. -/
structure ProcessedResult where
  images : List PILImg
  seed : ℤ

/-- Lines 522-549 of Script.run: copy the base configuration, install the
alternate-sampling fix with the two hard-coded placeholder prompts, attach
the frame array as the ControlNet input and the frame image as the img2img
input, and apply the selected color-correction policy.  The generated-image
policy reads `source_video.frames[-1]` — the final frame of the whole list
— and attaches a reference only when that frame already has a transformed
image. -/
def prepareFrameRequest {i g r : Type} (env : Env i g)
    (setup_color_correction : PILImg → r) (p : ProcessingConfig i r)
    (frames : List VideoVeilImage) (frame : VideoVeilImage)
    (color_correction : String) : PreparedRequest i g r :=
  let fixed := apply_img2img_alternate_fix env p
    prompt_describing_original_video neg_prompt_describing_original_video
  let cp := fixed.cp
  let cp := { cp with control_net_input_image := [frame.frame_array] }
  let cp := { cp with init_images := [frame.frame_image] }
  let cp :=
    if color_correction = color_correction_option_none then cp
    else if color_correction = color_correction_option_video then
      { cp with color_corrections := some [setup_color_correction frame.frame_image] }
    else if color_correction = color_correction_option_generated_image then
      match frames.getLast? with
      | some lastFrame =>
        match lastFrame.transformed_image with
        | some timg => { cp with color_corrections := some [setup_color_correction timg] }
        | none => cp
      | none => cp
    else cp
  { cp := cp, sample := fixed.sample }

/-- The frame loop of Script.run (lines 516-558), fueled by the number of
remaining indices.  Before each frame the interruption flag is polled and,
when set, the loop stops with the state reached so far.  Each processed
frame records the first returned image as its transformed image; the
requests handed to process_images are accumulated in order. -/
def runFramesAux {i g r : Type} (env : Env i g)
    (setup_color_correction : PILImg → r) (p : ProcessingConfig i r)
    (color_correction : String) (interrupted : ℕ → Bool)
    (process_images : PreparedRequest i g r → ProcessedResult) :
    ℕ → ℕ → List VideoVeilImage → List (PreparedRequest i g r) →
    List VideoVeilImage × List (PreparedRequest i g r)
  | 0, _, frames, reqs => (frames, reqs)
  | fuel + 1, idx, frames, reqs =>
    match frames.get? idx with
    | none => (frames, reqs)
    | some frame =>
      if interrupted idx then (frames, reqs)
      else
        let req := prepareFrameRequest env setup_color_correction p frames frame color_correction
        let procr := process_images req
        let frames := frames.set idx
          (frame.set_transformed_image (procr.images.getD 0 default))
        runFramesAux env setup_color_correction p color_correction interrupted
          process_images fuel (idx + 1) frames (reqs ++ [req])

/-- The whole frame loop of Script.run, starting at index 0 with enough
fuel for every frame. -/
def runFrames {i g r : Type} (env : Env i g)
    (setup_color_correction : PILImg → r) (p : ProcessingConfig i r)
    (color_correction : String) (interrupted : ℕ → Bool)
    (process_images : PreparedRequest i g r → ProcessedResult)
    (frames : List VideoVeilImage) :
    List VideoVeilImage × List (PreparedRequest i g r) :=
  runFramesAux env setup_color_correction p color_correction interrupted
    process_images frames.length 0 frames []

/-- Transcribed from claim C1: the sigma from which the model timestep is
derived — sigmas[1] when i = 1 and sigmas[i-1] otherwise. -/
def claimTimestepSigma (sigmas : List ℚ) (idx : ℕ) : ℚ :=
  if idx = 1 then sigmas.getD 1 0 else sigmas.getD (idx - 1) 0

/-- Transcribed from claim C1: the divisor of the step direction —
2 * sigmas[1] when i = 1 and sigmas[i-1] otherwise. -/
def claimDivisor (sigmas : List ℚ) (idx : ℕ) : ℚ :=
  if idx = 1 then 2 * sigmas.getD 1 0 else sigmas.getD (idx - 1) 0

/-- Transcribed from claim C1: one update
x := x + ((x - denoised) / divisor) * (sigmas[i] - sigmas[i-1]). -/
def claimStep (denoised : ℕ → ℚ → ℚ) (sigmas : List ℚ) (idx : ℕ) (x : ℚ) : ℚ :=
  x + ((x - denoised idx x) / claimDivisor sigmas idx) *
    (sigmas.getD idx 0 - sigmas.getD (idx - 1) 0)

/-- Transcribed from claim C1: the loop of updates for i from 1 to s. -/
def claimLoop (denoised : ℕ → ℚ → ℚ) (sigmas : List ℚ) (s : ℕ) (x0 : ℚ) : ℚ :=
  (List.range' 1 s).foldl (fun x idx => claimStep denoised sigmas idx x) x0

/-- The denoised estimate the code produces at iteration i on latent x:
the guided model output at the duplicated previous sigma, queried at the
timestep derived from `claimTimestepSigma`. -/
def claimDenoised {i g r : Type} (env : Env i g) (p : ProcessingConfig i r)
    (cond uncond : g) (cfg_scale : ℚ) (steps : ℕ) : ℕ → ℚ → ℚ :=
  fun idx x =>
    let dnw := selectedDenoiser env
    let sigmas := revSigmas env steps
    let sigma_prev := sigmas.getD (idx - 1) 0
    guidedDenoised env p cond uncond cfg_scale dnw (skipOf env)
      (sigma_prev, sigma_prev)
      (dnw.sigma_to_t (claimTimestepSigma sigmas idx, claimTimestepSigma sigmas idx)) x

/-- One counted iteration of the inversion loop: the latent update of
`sigmaStep` paired with the number of apply_model invocations made so far.
The loop body of lines 63-97 invokes shared.sd_model.apply_model exactly
once (line 80), so each iteration adds one. -/
def sigmaStepCounted {i g r : Type} (env : Env i g) (p : ProcessingConfig i r)
    (cond uncond : g) (cfg_scale : ℚ) (dnw : Denoiser) (skp : ℕ)
    (sigmas : List ℚ) (st : ℚ × ℕ) (idx : ℕ) : ℚ × ℕ :=
  (sigmaStep env p cond uncond cfg_scale dnw skp sigmas idx st.1, st.2 + 1)

/-- The inversion loop instrumented with the apply_model invocation count:
the final pre-normalization latent together with the total number of model
calls. -/
def find_noise_counted {i g r : Type} (env : Env i g) (p : ProcessingConfig i r)
    (cond uncond : g) (cfg_scale : ℚ) (steps : ℕ) : ℚ × ℕ :=
  let dnw := selectedDenoiser env
  let skp := skipOf env
  let sigmas := (dnw.get_sigmas steps).reverse
  (List.range' 1 (sigmas.length - 1)).foldl
    (fun st idx => sigmaStepCounted env p cond uncond cfg_scale dnw skp sigmas st idx)
    (p.init_latent, 0)

/-- The last-element default read of a list of length n + 1 is its entry
at index n. -/
theorem getLastD_of_length {a : Type} {l : List a} {n : ℕ}
    (h : l.length = n + 1) (d : a) : l.getLastD d = l.getD n d := by
  rw [List.getLastD_eq_getLast?, List.getLast?_eq_getElem?, List.getD_eq_getElem?_getD, h]
  simp

/-- Folding a step paired with a unit counter yields the plain fold and
the starting count plus the list length. -/
theorem foldl_counted_snd {a b : Type} (f : b → a → b) (l : List a) (x : b) (n : ℕ) :
    l.foldl (fun st e => (f st.1 e, st.2 + 1)) (x, n) = (l.foldl f x, n + l.length) := by
  induction l generalizing x n with
  | nil => simp
  | cons e rest ih =>
    simp only [List.foldl_cons, List.length_cons]
    rw [ih]
    have hn : n + 1 + rest.length = n + (rest.length + 1) := by omega
    rw [hn]

/-- Each iteration of the source loop equals the claim-worded update built
from the code's guided denoised estimate: the two definitions differ only
in the spelled-out multiplication by the all-ones batch. -/
theorem sigmaStep_eq_claimStep {i g r : Type} (env : Env i g)
    (p : ProcessingConfig i r) (cond uncond : g) (cfg_scale : ℚ) (s idx : ℕ) (x : ℚ) :
    sigmaStep env p cond uncond cfg_scale (selectedDenoiser env) (skipOf env)
      (revSigmas env s) idx x
      = claimStep (claimDenoised env p cond uncond cfg_scale s) (revSigmas env s) idx x := by
  by_cases h1 : idx = 1
  · subst h1
    simp [sigmaStep, claimStep, claimDenoised, claimDivisor, claimTimestepSigma, mul_one]
  · simp [sigmaStep, claimStep, claimDenoised, claimDivisor, claimTimestepSigma, h1, mul_one]

/-- C1: run with step count s over the reversed sigma schedule (of length
s + 1), the noise-inversion routine performs for each i from 1 to s the
update x := x + d * (sigmas[i] - sigmas[i-1]), where the model timestep is
derived from sigmas[1] when i = 1 and from sigmas[i-1] otherwise
(claimTimestepSigma), the direction d divides x - denoised by 2 * sigmas[1]
when i = 1 and by sigmas[i-1] otherwise (claimDivisor), and after the loop
it returns the final latent divided by the terminal sigma sigmas[s]. -/
theorem noise_inversion_recurrence {i g r : Type} (env : Env i g)
    (p : ProcessingConfig i r) (cond uncond : g) (cfg_scale : ℚ) (s : ℕ)
    (hlen : ((selectedDenoiser env).get_sigmas s).length = s + 1) :
    find_noise_for_image_sigma_adjustment env p cond uncond cfg_scale s =
      claimLoop (claimDenoised env p cond uncond cfg_scale s) (revSigmas env s) s
        p.init_latent / (revSigmas env s).getD s 0 := by
  have hrev : (revSigmas env s).length = s + 1 := by
    simpa [revSigmas] using hlen
  simp only [find_noise_for_image_sigma_adjustment, claimLoop]
  rw [show ((selectedDenoiser env).get_sigmas s).reverse = revSigmas env s from rfl]
  rw [hrev, Nat.add_sub_cancel, getLastD_of_length hrev]
  congr 1
  exact List.foldl_ext _ _ _
    (fun x idx _ => sigmaStep_eq_claimStep env p cond uncond cfg_scale s idx x)

/-- C2: with a schedule of length s + 1, the inversion loop performs
exactly s counted apply_model invocations (one per iteration, whatever the
parameterization skip offset of the environment), and the counted loop
computes the same result as the routine itself. -/
theorem noise_inversion_model_call_count {i g r : Type} (env : Env i g)
    (p : ProcessingConfig i r) (cond uncond : g) (cfg_scale : ℚ) (s : ℕ)
    (hs : 1 ≤ s)
    (hlen : ((selectedDenoiser env).get_sigmas s).length = s + 1) :
    (find_noise_counted env p cond uncond cfg_scale s).2 = s
    ∧ (find_noise_counted env p cond uncond cfg_scale s).1 /
        (revSigmas env s).getLastD 0
        = find_noise_for_image_sigma_adjustment env p cond uncond cfg_scale s := by
  have hrev : (((selectedDenoiser env).get_sigmas s).reverse).length = s + 1 := by
    simpa using hlen
  have hcount : find_noise_counted env p cond uncond cfg_scale s
      = ((List.range' 1 s).foldl
          (fun x idx => sigmaStep env p cond uncond cfg_scale (selectedDenoiser env)
            (skipOf env) (revSigmas env s) idx x) p.init_latent, 0 + s) := by
    simp only [find_noise_counted, sigmaStepCounted, hrev, Nat.add_sub_cancel]
    rw [show ((selectedDenoiser env).get_sigmas s).reverse = revSigmas env s from rfl]
    rw [foldl_counted_snd
      (fun x idx => sigmaStep env p cond uncond cfg_scale (selectedDenoiser env)
        (skipOf env) (revSigmas env s) idx x) (List.range' 1 s) p.init_latent 0]
    rw [List.length_range']
  constructor
  · rw [hcount]
    omega
  · rw [hcount]
    simp only [find_noise_for_image_sigma_adjustment]
    rw [show ((selectedDenoiser env).get_sigmas s).reverse = revSigmas env s from rfl]
    have hrev2 : (revSigmas env s).length = s + 1 := by simpa [revSigmas] using hlen
    rw [hrev2, Nat.add_sub_cancel]

/-- A concrete denoiser: the schedule for n steps counts down from n to 0,
the timestep map is the identity, and all scalings are one. -/
def testDenoiser : Denoiser :=
  { get_sigmas := fun n => (List.range (n + 1)).map (fun k => ((n - k : ℕ) : ℚ))
    sigma_to_t := fun b => b
    get_scalings := fun _ => [(1, 1), (1, 1), (1, 1)] }

/-- A concrete environment over natural-number conditioning: the model
echoes its input batch. -/
def testEnv : Env ℕ ℕ :=
  { parameterization := .eps
    compVisDenoiser := testDenoiser
    compVisVDenoiser := testDenoiser
    apply_model := fun x_in _ _ => x_in
    get_learned_conditioning := fun l => l.length
    create_sampler := fun _ =>
      { get_sigmas := fun n => (List.range (n + 1)).map (fun k => ((n - k : ℕ) : ℚ)) } }

/-- A concrete base generation request. -/
def testConfig : ProcessingConfig ℕ ℕ :=
  { batch_size := 2
    sampler_name := "DDIM"
    steps := 2
    init_latent := 1
    image_conditioning := 0
    prompt := "p"
    negative_prompt := "n"
    cfg_scale := 7
    n_iter := 1
    control_net_input_image := []
    init_images := []
    color_corrections := none
    outpath_samples := "out" }

/-- Witness for C1: the recurrence theorem applied to the concrete
environment at step count 2, whose schedule indeed has length 3. -/
theorem noise_inversion_recurrence_witness :
    ((selectedDenoiser testEnv).get_sigmas 2).length = 2 + 1
    ∧ find_noise_for_image_sigma_adjustment testEnv testConfig 5 6 1 2 =
        claimLoop (claimDenoised testEnv testConfig 5 6 1 2) (revSigmas testEnv 2) 2
          testConfig.init_latent / (revSigmas testEnv 2).getD 2 0 :=
  ⟨by decide, noise_inversion_recurrence testEnv testConfig 5 6 1 2 (by decide)⟩

/-- Witness for C2: the call-count theorem applied to the concrete
environment at step count 2. -/
theorem noise_inversion_model_call_count_witness :
    (1 ≤ 2 ∧ ((selectedDenoiser testEnv).get_sigmas 2).length = 2 + 1)
    ∧ ((find_noise_counted testEnv testConfig 5 6 1 2).2 = 2
      ∧ (find_noise_counted testEnv testConfig 5 6 1 2).1 /
          (revSigmas testEnv 2).getLastD 0
          = find_noise_for_image_sigma_adjustment testEnv testConfig 5 6 1 2) :=
  ⟨⟨by decide, by decide⟩,
    noise_inversion_model_call_count testEnv testConfig 5 6 1 2 (by decide) (by decide)⟩

/-- C7: the noise-inversion routine introduces no randomness — two
invocations on pairwise equal environments, requests, conditioning pairs,
guidance scales and step counts produce identical outputs. -/
theorem noise_inversion_deterministic {i g r : Type}
    (env1 env2 : Env i g) (p1 p2 : ProcessingConfig i r) (c1 c2 u1 u2 : g)
    (cf1 cf2 : ℚ) (s1 s2 : ℕ)
    (henv : env1 = env2) (hp : p1 = p2) (hc : c1 = c2) (hu : u1 = u2)
    (hcf : cf1 = cf2) (hs : s1 = s2) :
    find_noise_for_image_sigma_adjustment env1 p1 c1 u1 cf1 s1
      = find_noise_for_image_sigma_adjustment env2 p2 c2 u2 cf2 s2 := by
  subst henv hp hc hu hcf hs
  rfl

/-- Witness for C7: two identical invocations on the concrete environment. -/
theorem noise_inversion_deterministic_witness :
    (testEnv = testEnv ∧ testConfig = testConfig ∧ (5 : ℕ) = 5 ∧ (6 : ℕ) = 6
      ∧ (1 : ℚ) = 1 ∧ (2 : ℕ) = 2)
    ∧ find_noise_for_image_sigma_adjustment testEnv testConfig 5 6 1 2
        = find_noise_for_image_sigma_adjustment testEnv testConfig 5 6 1 2 :=
  ⟨⟨rfl, rfl, rfl, rfl, rfl, rfl⟩,
    noise_inversion_deterministic testEnv testEnv testConfig testConfig 5 5 6 6 1 1 2 2
      rfl rfl rfl rfl rfl rfl⟩

/-- C6: with error raising enabled, a missing (or None) source path makes
construction fail with the not-found error of the selected mode, for every
filesystem with that path absent — in particular the result never depends
on the loaders, so no frame loading is attempted and no frames exist. -/
theorem missing_source_error (fs : HostFS) (vpath dpath : Option String)
    (test_run : Bool) (tcount : ℕ)
    (hd : dpath = none ∨ fs.path_exists (dpath.getD "") = false)
    (hv : vpath = none ∨ fs.path_exists (vpath.getD "") = false) :
    mkVideoVeilSourceVideo fs true vpath dpath test_run tcount true
        = .error (.directoryNotFound dpath)
    ∧ mkVideoVeilSourceVideo fs false vpath dpath test_run tcount true
        = .error (.videoNotFound vpath) := by
  have hd2 : (dpath.isNone || !(fs.path_exists (dpath.getD ""))) = true := by
    rcases hd with h | h <;> simp [h]
  have hv2 : (vpath.isNone || !(fs.path_exists (vpath.getD ""))) = true := by
    rcases hv with h | h <;> simp [h]
  constructor <;> simp [mkVideoVeilSourceVideo, hd2, hv2]

/-- A filesystem on which no path exists. -/
def missingFS : HostFS :=
  { path_exists := fun _ => false
    listdir := fun _ => []
    open_image := fun _ => default
    convert := fun im _ => im
    video_opens := fun _ => false
    video_frames := fun _ => []
    video_fps := fun _ => 30
    basename := fun s => s }

/-- Witness for C6: both modes fail on a filesystem without the paths. -/
theorem missing_source_error_witness :
    ((some "d" = none ∨ missingFS.path_exists ((some "d").getD "") = false)
      ∧ (some "v" = none ∨ missingFS.path_exists ((some "v").getD "") = false))
    ∧ (mkVideoVeilSourceVideo missingFS true (some "v") (some "d") false 0 true
          = .error (.directoryNotFound (some "d"))
      ∧ mkVideoVeilSourceVideo missingFS false (some "v") (some "d") false 0 true
          = .error (.videoNotFound (some "v"))) :=
  ⟨⟨Or.inr rfl, Or.inr rfl⟩,
    missing_source_error missingFS (some "v") (some "d") false 0
      (Or.inr rfl) (Or.inr rfl)⟩

/-- A filesystem whose paths all exist but on which the directory listing
is empty and the video container does not open. -/
def emptySourceFS : HostFS :=
  { path_exists := fun _ => true
    listdir := fun _ => []
    open_image := fun _ => default
    convert := fun im _ => im
    video_opens := fun _ => false
    video_frames := fun _ => []
    video_fps := fun _ => 30
    basename := fun s => s }

/-- Counterexample to C5: in video mode, an existing source that yields
zero decodable frames does not fail — construction succeeds and simply
holds zero frames, contradicting the claimed EmptySourceError. -/
theorem empty_video_source_no_error :
    (mkVideoVeilSourceVideo emptySourceFS false (some "clip.mp4") none false 0 true).map
        (fun sv => sv.frames.length) = .ok 0 := by
  rfl

/-- C5 amended: an existing directory with zero recognized images fails
with the empty-source error, while an existing video source with zero
decodable frames (unopenable container or no successful read) constructs
successfully with an empty frame list. -/
theorem empty_source_behaviour (fs : HostFS) (d v : String)
    (vpath dpath : Option String) (test_run throw_err : Bool) (tcount : ℕ)
    (hde : fs.path_exists d = true)
    (hdl : (fs.listdir d).filter
      (fun file_name => image_extensions.any (fun ext => file_name.endsWith ext)) = [])
    (hve : fs.path_exists v = true)
    (hvf : fs.video_opens v = false ∨ fs.video_frames v = []) :
    mkVideoVeilSourceVideo fs true vpath (some d) test_run tcount throw_err
        = .error (.noImagesFound d)
    ∧ (mkVideoVeilSourceVideo fs false (some v) dpath test_run tcount throw_err).map
        (fun sv => sv.frames) = .ok [] := by
  constructor
  · simp [mkVideoVeilSourceVideo, load_frames_from_folder, hde, hdl]
  · rcases hvf with h | h <;>
      simp [mkVideoVeilSourceVideo, load_frames_from_video, loadVideoLoop,
        set_video_dimensions, Except.map, hve, h]

/-- Witness for the amended C5: both the empty directory and the empty
video on the concrete filesystem. -/
theorem empty_source_behaviour_witness :
    (emptySourceFS.path_exists "frames" = true
      ∧ (emptySourceFS.listdir "frames").filter
          (fun file_name => image_extensions.any (fun ext => file_name.endsWith ext)) = []
      ∧ emptySourceFS.path_exists "clip.mp4" = true
      ∧ (emptySourceFS.video_opens "clip.mp4" = false
          ∨ emptySourceFS.video_frames "clip.mp4" = []))
    ∧ (mkVideoVeilSourceVideo emptySourceFS true none (some "frames") false 0 true
          = .error (.noImagesFound "frames")
      ∧ (mkVideoVeilSourceVideo emptySourceFS false (some "clip.mp4") none false 0 true).map
          (fun sv => sv.frames) = .ok []) :=
  ⟨⟨rfl, rfl, rfl, Or.inl rfl⟩,
    empty_source_behaviour emptySourceFS "frames" "clip.mp4" none none false true 0
      rfl rfl rfl (Or.inl rfl)⟩

/-- C8: video assembly is a no-op on a test run; otherwise it writes under
the video-veil-output subdirectory of the supplied output directory (which
it creates), names the file timestamp-seed-original, synthesizes the
original name as basename-of-directory plus .mp4 in directory mode, and
takes the frame rate from the source container in video mode and 30
otherwise. -/
theorem create_mp4_spec (fs : HostFS) (now_utc : String)
    (sv : VideoVeilSourceVideo) (seed : ℤ) (output_directory : String) :
    create_mp4 fs now_utc sv seed output_directory =
      if sv.test_run then none
      else
        some
          { output_path := joinPath (joinPath output_directory "video-veil-output")
              (now_utc ++ "-" ++ toString seed ++ "-" ++
                (if sv.use_images_directory then
                  fs.basename (sv.directory_upload_path.getD "") ++ ".mp4"
                else fs.basename (sv.video_path.getD "")))
            fps :=
              if sv.use_images_directory then 30
              else fs.video_fps (sv.video_path.getD "")
            made_directory := joinPath output_directory "video-veil-output"
            written := sv.frames.map
              (fun frame => frame.transformed_image.map
                (fun im => cvtColor_RGB2BGR (np_array im))) } := by
  by_cases ht : sv.test_run <;> by_cases hu : sv.use_images_directory <;>
    simp [create_mp4, ht, hu]

/-- The video decoding loop without a frame cap builds one frame per
decoded array, via the frame-array constructor. -/
theorem loadVideoLoop_none (bufs : List PixBuf) (acc : List VideoVeilImage) :
    loadVideoLoop none bufs acc = acc ++ bufs.map VideoVeilImage.ofFrameArray := by
  induction bufs generalizing acc with
  | nil => simp [loadVideoLoop]
  | cons b rest ih => simp [loadVideoLoop, capReached, ih]

/-- The folder loading loop without a frame cap builds one frame per
listed name, via the image constructor on the RGB-normalized opened
image. -/
theorem loadFolderLoop_none (fs : HostFS) (dir : String)
    (names : List String) (acc : List VideoVeilImage) :
    loadFolderLoop fs dir none names acc
      = acc ++ names.map
          (fun n => VideoVeilImage.ofFrameImage (ensureRGB fs (fs.open_image (joinPath dir n)))) := by
  induction names generalizing acc with
  | nil => simp [loadFolderLoop]
  | cons n rest ih => simp [loadFolderLoop, capReached, ih]

/-- The per-frame request always carries the frame's raw array as the
ControlNet input, whatever the color-correction mode does afterwards. -/
theorem prepareFrameRequest_control_net {i g r : Type} (env : Env i g)
    (setup_color_correction : PILImg → r) (p : ProcessingConfig i r)
    (frames : List VideoVeilImage) (frame : VideoVeilImage) (cc : String) :
    (prepareFrameRequest env setup_color_correction p frames frame cc).cp.control_net_input_image
      = [frame.frame_array] := by
  simp only [prepareFrameRequest, apply_img2img_alternate_fix]
  split_ifs <;> try rfl
  cases frames.getLast? with
  | none => rfl
  | some lastFrame => cases h : lastFrame.transformed_image <;> simp [h]

/-- C9: a frame built from a decoded video array keeps the decoder's BGR
buffer as frame_array and stores its BGR-to-RGB conversion as frame_image;
a frame built from an opened image file stores the image's own (RGB)
buffer as frame_array; the video and folder loaders construct frames
exactly through those two constructors; and the per-frame request attaches
frame_array as the structural-guidance (ControlNet) input. -/
theorem frame_channel_order {i g r : Type} (env : Env i g)
    (setup_color_correction : PILImg → r) (p : ProcessingConfig i r)
    (frames : List VideoVeilImage) (frame : VideoVeilImage) (cc : String)
    (a : PixBuf) (im : PILImg) (fs : HostFS) (dir : String)
    (bufs : List PixBuf) (names : List String) (acc : List VideoVeilImage) :
    (VideoVeilImage.ofFrameArray a).frame_array = a
    ∧ (VideoVeilImage.ofFrameArray a).frame_image = Image_fromarray (cvtColor_BGR2RGB a)
    ∧ (VideoVeilImage.ofFrameImage im).frame_array = np_array im
    ∧ (VideoVeilImage.ofFrameImage im).frame_image = im
    ∧ loadVideoLoop none bufs acc = acc ++ bufs.map VideoVeilImage.ofFrameArray
    ∧ loadFolderLoop fs dir none names acc
        = acc ++ names.map
            (fun n => VideoVeilImage.ofFrameImage (ensureRGB fs (fs.open_image (joinPath dir n))))
    ∧ (prepareFrameRequest env setup_color_correction p frames frame cc).cp.control_net_input_image
        = [frame.frame_array] :=
  ⟨rfl, rfl, rfl, rfl, loadVideoLoop_none bufs acc, loadFolderLoop_none fs dir names acc,
    prepareFrameRequest_control_net env setup_color_correction p frames frame cc⟩

/-- The noise-inversion routine reads only the initial latent and the
image conditioning of the request. -/
theorem find_noise_config_congr {i g r : Type} (env : Env i g)
    (p q : ProcessingConfig i r) (cond uncond : g) (cf : ℚ) (s : ℕ)
    (hl : p.init_latent = q.init_latent)
    (hi : p.image_conditioning = q.image_conditioning) :
    find_noise_for_image_sigma_adjustment env p cond uncond cf s
      = find_noise_for_image_sigma_adjustment env q cond uncond cf s := by
  simp only [find_noise_for_image_sigma_adjustment, sigmaStep, guidedDenoised, hl, hi]

/-- C10: the installed sampling override delegates with the request's
initial latent, a noise equal to the inverted noise (computed at guidance
scale 1 from the two hard-coded placeholder prompts and the request's step
count) minus the initial latent divided by the schedule's first sigma, and
the caller's conditioning pair; its output is unchanged by the request's
own prompt, negative prompt and CFG scale; and the per-frame request of
the run loop installs exactly this override. -/
theorem alternate_fix_sample_override {i g r : Type} (env : Env i g)
    (cp cq : ProcessingConfig i r) (c u : g)
    (setup_color_correction : PILImg → r) (frames : List VideoVeilImage)
    (frame : VideoVeilImage) (cc : String)
    (hsteps : cq.steps = cp.steps) (hlat : cq.init_latent = cp.init_latent)
    (him : cq.image_conditioning = cp.image_conditioning) :
    (apply_img2img_alternate_fix env cp prompt_describing_original_video
        neg_prompt_describing_original_video).sample c u
      = { x := cp.init_latent
          noise := find_noise_for_image_sigma_adjustment env
              { cp with batch_size := 1, sampler_name := "Euler" }
              (env.get_learned_conditioning [prompt_describing_original_video])
              (env.get_learned_conditioning [neg_prompt_describing_original_video])
              1 cp.steps
            - cp.init_latent /
              ((env.create_sampler "Euler").get_sigmas cp.steps).getD 0 0
          conditioning := c
          unconditional_conditioning := u
          image_conditioning := cp.image_conditioning }
    ∧ (apply_img2img_alternate_fix env cq prompt_describing_original_video
          neg_prompt_describing_original_video).sample c u
        = (apply_img2img_alternate_fix env cp prompt_describing_original_video
            neg_prompt_describing_original_video).sample c u
    ∧ (prepareFrameRequest env setup_color_correction cp frames frame cc).sample
        = (apply_img2img_alternate_fix env cp prompt_describing_original_video
            neg_prompt_describing_original_video).sample := by
  refine ⟨rfl, ?_, rfl⟩
  have hfn := find_noise_config_congr env
    { cq with batch_size := 1, sampler_name := "Euler" }
    { cp with batch_size := 1, sampler_name := "Euler" }
    (env.get_learned_conditioning [prompt_describing_original_video])
    (env.get_learned_conditioning [neg_prompt_describing_original_video])
    1 cq.steps (by simpa using hlat) (by simpa using him)
  simp only [apply_img2img_alternate_fix, sample_extra]
  rw [hfn]
  simp [hsteps, hlat, him]

/-- A request equal to the concrete base request except for its prompt,
negative prompt and CFG scale. -/
def cqTest : ProcessingConfig ℕ ℕ :=
  { testConfig with prompt := "other", negative_prompt := "other neg", cfg_scale := 3 }

/-- A concrete color-correction reference extractor. -/
def setupCC : PILImg → ℕ := fun im => im.buf.pix.length + 100

/-- Witness for C10: the override theorem at the concrete environment,
with a second request differing only in prompt, negative prompt and CFG
scale. -/
theorem alternate_fix_sample_override_witness :
    (cqTest.steps = testConfig.steps ∧ cqTest.init_latent = testConfig.init_latent
      ∧ cqTest.image_conditioning = testConfig.image_conditioning)
    ∧ ((apply_img2img_alternate_fix testEnv testConfig prompt_describing_original_video
          neg_prompt_describing_original_video).sample 11 12
        = { x := testConfig.init_latent
            noise := find_noise_for_image_sigma_adjustment testEnv
                { testConfig with batch_size := 1, sampler_name := "Euler" }
                (testEnv.get_learned_conditioning [prompt_describing_original_video])
                (testEnv.get_learned_conditioning [neg_prompt_describing_original_video])
                1 testConfig.steps
              - testConfig.init_latent /
                ((testEnv.create_sampler "Euler").get_sigmas testConfig.steps).getD 0 0
            conditioning := 11
            unconditional_conditioning := 12
            image_conditioning := testConfig.image_conditioning }
      ∧ (apply_img2img_alternate_fix testEnv cqTest prompt_describing_original_video
            neg_prompt_describing_original_video).sample 11 12
          = (apply_img2img_alternate_fix testEnv testConfig prompt_describing_original_video
              neg_prompt_describing_original_video).sample 11 12
      ∧ (prepareFrameRequest testEnv setupCC testConfig [] default
            color_correction_option_none).sample
          = (apply_img2img_alternate_fix testEnv testConfig prompt_describing_original_video
              neg_prompt_describing_original_video).sample) :=
  ⟨⟨rfl, rfl, rfl⟩,
    alternate_fix_sample_override testEnv testConfig cqTest 11 12 setupCC [] default
      color_correction_option_none rfl rfl rfl⟩

/-- A concrete decoded first frame. -/
def bufA : PixBuf := { h := 1, w := 1, pix := [(1, 2, 3)] }

/-- A concrete decoded second frame. -/
def bufB : PixBuf := { h := 1, w := 1, pix := [(4, 5, 6)] }

/-- The constant image returned by the concrete processing pipeline. -/
def outImg : PILImg := { buf := { h := 1, w := 1, pix := [(7, 8, 9)] }, mode := "RGB" }

/-- A concrete processing pipeline returning the constant image. -/
def processConst : PreparedRequest ℕ ℕ ℕ → ProcessedResult :=
  fun _ => { images := [outImg], seed := 3 }

/-- A concrete two-frame video source. -/
def framesAB : List VideoVeilImage :=
  [VideoVeilImage.ofFrameArray bufA, VideoVeilImage.ofFrameArray bufB]

/-- The run loop on the two concrete frames in generated-image
color-correction mode, without interruption. -/
def runGenCC : List VideoVeilImage × List (PreparedRequest ℕ ℕ ℕ) :=
  runFrames testEnv setupCC testConfig color_correction_option_generated_image
    (fun _ => false) processConst framesAB

/-- C3 evaluated at the failing input: in generated-image mode over two
frames, the request of frame 1 carries no color-correction reference even
though frame 0 already has a transformed output — the reference branch
reads the final list element, whose transformed image is still absent, so
it never fires. -/
theorem generated_color_correction_eval :
    runGenCC.2.map (fun req => req.cp.color_corrections) = [none, none]
    ∧ runGenCC.1.map (fun f => f.transformed_image) = [some outImg, some outImg] := by
  constructor <;> rfl

/-- The run loop on the two concrete frames with the interruption flag
raised after frame 0 completes. -/
def runInterrupted : List VideoVeilImage × List (PreparedRequest ℕ ℕ ℕ) :=
  runFrames testEnv setupCC testConfig color_correction_option_none
    (fun idx => !(idx == 0)) processConst framesAB

/-- A concrete filesystem whose video source decodes the two concrete
frames. -/
def fullFS : HostFS :=
  { path_exists := fun _ => true
    listdir := fun _ => []
    open_image := fun _ => default
    convert := fun im _ => im
    video_opens := fun _ => true
    video_frames := fun _ => [bufA, bufB]
    video_fps := fun _ => 24
    basename := fun s => s }

/-- The source-video state handed to the assembler after the interrupted
run. -/
def svInterrupted : VideoVeilSourceVideo :=
  { frames := runInterrupted.1
    use_images_directory := false
    video_path := some "clip.mp4"
    directory_upload_path := none
    test_run := false
    test_run_frames_count := none
    video_width := 1
    video_height := 1 }

/-- C4 evaluated at the failing input: interrupted after frame 0 of two,
the loop leaves frame 1 untransformed, yet the assembler feeds the writer
one entry per source frame — two entries, the second an absent image —
rather than a video of exactly the one processed frame. -/
theorem cancellation_video_assembly_eval :
    runInterrupted.1.map (fun f => (f.transformed_image).isSome) = [true, false]
    ∧ (create_mp4 fullFS "2026-10-12T00-00-00" svInterrupted 5 "outputs").map
        (fun out => out.written.map Option.isSome) = some [true, false] := by
  constructor <;> rfl
